import Mathlib

/-!
Verification of the simulation core of a physics-based projectile-destruction
game (slingshot launcher, five-variant projectile abilities, shared
destructible damage model, round controller).  Each component below is a
shallow embedding of the corresponding TypeScript class: numeric fields are
modelled over the real numbers, timestamps over the naturals (milliseconds),
and the event-driven parts (collision callbacks, deferred timers, the round
poll) as explicit step functions over small state records.
-/

set_option autoImplicit false
set_option linter.unusedVariables false

open Real

/-- A 2-D vector (velocity, force, or point), as the plain x/y records used
throughout the source. -/
structure Vec where
  x : ℝ
  y : ℝ

/-- Magnitude of a vector; the source computes Math.sqrt(v.x * v.x + v.y * v.y). -/
noncomputable def Vec.norm (v : Vec) : ℝ :=
  Real.sqrt (v.x * v.x + v.y * v.y)

namespace Slingshot

/-- Slingshot.maxStretch (Slingshot.ts). -/
def maxStretch : ℝ := 100

/-- Slingshot.forceMultiplier (Slingshot.ts). -/
def forceMultiplier : ℝ := 0.0014

/-- The Slingshot fields: anchor point, current drag point and dragging flag
(Slingshot.ts).  In this revision the resting point of the launcher is the
anchor itself: setPosition resets the drag point to the anchor and release
snaps it back there. -/
structure State where
  anchorX : ℝ
  anchorY : ℝ
  dragX : ℝ
  dragY : ℝ
  isDragging : Bool

/-- Slingshot.setPosition: sets anchor and drag point. -/
def setPosition (x y : ℝ) : State :=
  { anchorX := x, anchorY := y, dragX := x, dragY := y, isDragging := false }

/-- Slingshot.updateDrag: no-op unless dragging; clamps the requested point to
at most maxStretch from the anchor by scaling the drag vector down. -/
noncomputable def updateDrag (s : State) (x y : ℝ) : State :=
  if s.isDragging = false then s
  else
    let dx := x - s.anchorX
    let dy := y - s.anchorY
    let distance := Real.sqrt (dx * dx + dy * dy)
    if maxStretch < distance then
      let ratio := maxStretch / distance
      { s with dragX := s.anchorX + dx * ratio, dragY := s.anchorY + dy * ratio }
    else
      { s with dragX := x, dragY := y }

/-- Slingshot.startDrag: sets the dragging flag then behaves as updateDrag. -/
noncomputable def startDrag (s : State) (x y : ℝ) : State :=
  updateDrag { s with isDragging := true } x y

/-- Slingshot.release: ends the drag, returns the impulse
(anchor - drag) * forceMultiplier and resets the drag point to the anchor. -/
def release (s : State) : State × Vec :=
  let forceX := (s.anchorX - s.dragX) * forceMultiplier
  let forceY := (s.anchorY - s.dragY) * forceMultiplier
  ({ s with isDragging := false, dragX := s.anchorX, dragY := s.anchorY },
   ⟨forceX, forceY⟩)

/-- Slingshot.getDragDistance: distance from the drag point to the anchor. -/
noncomputable def getDragDistance (s : State) : ℝ :=
  Real.sqrt ((s.dragX - s.anchorX) * (s.dragX - s.anchorX) +
             (s.dragY - s.anchorY) * (s.dragY - s.anchorY))

/-- A whole drag session: startDrag at p, then a list of updateDrag calls. -/
noncomputable def dragSession (anchor p : Vec) (moves : List Vec) : State :=
  moves.foldl (fun t m => updateDrag t m.x m.y)
    (startDrag (setPosition anchor.x anchor.y) p.x p.y)

end Slingshot

inductive PigSize where
  | small
  | medium
  | large
deriving DecidableEq

namespace Pig

/-- Pig max health by size tier (Pig.ts constructor): 30 / 60 / 100. -/
def maxHealthOf : PigSize → ℝ
  | .small => 30
  | .medium => 60
  | .large => 100

/-- The damage-relevant Pig fields: health, the terminal isDestroyed flag, and
the two millisecond timestamps used by the collision guards of the later Pig
revision (spawn-grace period and damage debounce). -/
structure State where
  health : ℝ
  isDestroyed : Bool
  spawnTime : ℕ
  lastDamageTime : ℕ

/-- A freshly constructed Pig (constructed at time 0): full health, not
destroyed. -/
def init (size : PigSize) : State :=
  { health := maxHealthOf size, isDestroyed := false,
    spawnTime := 0, lastDamageTime := 0 }

/-- Pig.takeDamage: health -= amount; crossing to <= 0 clamps health to 0 and
sets the destroyed flag (identical in both Pig revisions). -/
noncomputable def takeDamage (s : State) (amount : ℝ) : State :=
  let health := s.health - amount
  if health ≤ 0 then
    { s with health := 0, isDestroyed := true }
  else
    { s with health := health }

/-- Pig.handleCollision for one collision pair involving this pig (later Pig
revision): a 1200 ms spawn-grace period, a 50 ms damage debounce, ground
contacts ignored; relative speed of the pair below the 1.5 threshold applies
no damage, otherwise damage = relativeSpeed * otherMass * 200, doubled when
otherMass > 0.0015 (the source's mass heuristic for a direct bird hit). -/
noncomputable def handleCollision (s : State) (now : ℕ) (vA vB : Vec)
    (otherMass : ℝ) (otherIsGround : Bool) : State :=
  if now - s.spawnTime < 1200 then s
  else if now - s.lastDamageTime < 50 then s
  else if otherIsGround then s
  else
    let relativeSpeed := Vec.norm ⟨vA.x - vB.x, vA.y - vB.y⟩
    if 1.5 < relativeSpeed then
      let baseDamage := relativeSpeed * otherMass * 200
      let damageMultiplier : ℝ := if 0.0015 < otherMass then 2 else 1
      let finalDamage := baseDamage * damageMultiplier
      { takeDamage s finalDamage with lastDamageTime := now }
    else s

/-- Folding a sequence of takeDamage calls over a pig. -/
noncomputable def runDamage (s : State) (amounts : List ℝ) : State :=
  amounts.foldl takeDamage s

end Pig

inductive BlockMaterial where
  | wood
  | stone
  | ice
deriving DecidableEq

namespace Block

/-- Material durability (Block.ts getMaterialProperties): wood 50, stone 150,
ice 30.  This is the block's max health. -/
def durability : BlockMaterial → ℝ
  | .wood => 50
  | .stone => 150
  | .ice => 30

/-- The damage-relevant Block fields: health and the debounce timestamp. -/
structure State where
  health : ℝ
  lastImpactTime : ℕ

/-- A freshly constructed Block (at time 0): health = material durability. -/
def init (m : BlockMaterial) : State :=
  { health := durability m, lastImpactTime := 0 }

/-- Block.takeDamage: health -= amount, clamped to 0 from below.  Blocks carry
no stored destroyed flag; shouldDestroy recomputes it. -/
noncomputable def takeDamage (s : State) (amount : ℝ) : State :=
  let health := s.health - amount
  if health ≤ 0 then { s with health := 0 } else { s with health := health }

/-- Block.shouldDestroy: health <= 0. -/
def shouldDestroy (s : State) : Prop := s.health ≤ 0

/-- Block.handleCollision for one collision pair involving this block
(Block.ts): a 100 ms debounce; relative speed of the pair at or below the 2
threshold applies no damage, otherwise damage = impactSpeed * 5.  The other
body is received (otherMass) but its mass is never read by this revision's
formula. -/
noncomputable def handleCollision (s : State) (now : ℕ) (vSelf vOther : Vec)
    (otherMass : ℝ) : State :=
  if now - s.lastImpactTime < 100 then s
  else
    let impactSpeed := Vec.norm ⟨vSelf.x - vOther.x, vSelf.y - vOther.y⟩
    if 2 < impactSpeed then
      { takeDamage s (impactSpeed * 5) with lastImpactTime := now }
    else s

/-- Folding a sequence of takeDamage calls over a block. -/
noncomputable def runDamage (s : State) (amounts : List ℝ) : State :=
  amounts.foldl takeDamage s

end Block

inductive BirdType where
  | red
  | blue
  | yellow
  | black
  | white
deriving DecidableEq, Fintype

namespace Bird

/-- Bird.getRadius (Bird.ts, latest revision): per-type radius. -/
def getRadius : BirdType → ℝ
  | .red => 22
  | .blue => 16
  | .yellow => 20
  | .black => 28
  | .white => 24

/-- Bird.getDensity (Bird.ts, latest revision): per-type density. -/
def getDensity : BirdType → ℝ
  | .red => 0.0025
  | .blue => 0.0015
  | .yellow => 0.002
  | .black => 0.004
  | .white => 0.003

/-- The mass of a bird body: density times the (idealized circular) area of
its physics body, as the rigid-body engine computes it for a circle of the
constructor's radius. -/
noncomputable def massOf (t : BirdType) : ℝ :=
  getDensity t * (Real.pi * getRadius t ^ 2)

/-- The Bird lifecycle/ability flags (Bird.ts, latest revision), plus
pendingExplosion, which models the one deferred 50 ms detonation callback that
handleCollision can schedule for the black bird. -/
structure State where
  type : BirdType
  isLaunched : Bool
  abilityUsed : Bool
  hasCollided : Bool
  isDestroyed : Bool
  pendingExplosion : Bool
deriving DecidableEq, Fintype

/-- The five world-mutating ability effects a bird can dispatch, as labels:
the red shockwave, the blue split, the yellow speed boost, the black
detonation (also used by the deferred impact callback), and the white egg
bomb. -/
inductive Effect where
  | areaImpulse
  | split
  | speedBoost
  | explode
  | eggBomb
deriving DecidableEq

/-- A freshly constructed (non-split) bird: all flags false. -/
def mkBird (t : BirdType) : State :=
  { type := t, isLaunched := false, abilityUsed := false,
    hasCollided := false, isDestroyed := false, pendingExplosion := false }

/-- Bird.launch: no-op when destroyed, otherwise sets isLaunched (the applied
impulse mutates only the physics body). -/
def launch (s : State) : State :=
  if s.isDestroyed then s else { s with isLaunched := true }

/-- Bird.handleCollision for a collision-start event touching this body: no-op
when destroyed; the first collision after launch sets hasCollided, and for a
black bird whose ability is unused schedules the deferred detonation
(setTimeout 50 ms), modelled by pendingExplosion.  Note the source does not
set abilityUsed here. -/
def handleCollision (s : State) : State :=
  if s.isDestroyed then s
  else if s.hasCollided = false ∧ s.isLaunched = true then
    let s₁ := { s with hasCollided := true }
    if s₁.type = .black ∧ s₁.abilityUsed = false then
      { s₁ with pendingExplosion := true }
    else s₁
  else s

/-- The deferred detonation callback firing: clears the pending timer and,
unless the bird was destroyed in the meantime, applies explodeAbility (which
mutates only other bodies' velocities, never this bird's flags). -/
def timerFire (s : State) : State × List Effect :=
  if s.pendingExplosion = true then
    let s₁ := { s with pendingExplosion := false }
    if s₁.isDestroyed = false then (s₁, [.explode]) else (s₁, [])
  else (s, [])

/-- Bird.activateAbility: gated on not destroyed, (not collided unless black),
ability unused and launched; on success sets abilityUsed and dispatches
exactly one effect by type. -/
def activateAbility (s : State) : State × List Effect :=
  if s.isDestroyed then (s, [])
  else if s.hasCollided = true ∧ s.type ≠ .black then (s, [])
  else if s.abilityUsed = true ∨ s.isLaunched = false then (s, [])
  else
    let s₁ := { s with abilityUsed := true }
    match s₁.type with
    | .red => (s₁, [.areaImpulse])
    | .blue => (s₁, [.split])
    | .yellow => (s₁, [.speedBoost])
    | .black => (s₁, [.explode])
    | .white => (s₁, [.eggBomb])

/-- Bird.destroy: sets isDestroyed (and unsubscribes the collision handler;
the pending detonation timer is not cleared, but its callback checks
isDestroyed). -/
def destroy (s : State) : State :=
  { s with isDestroyed := true }

/-- The events a bird can receive during a round. -/
inductive Event where
  | launch
  | collide
  | activate
  | timerFire
  | destroy
deriving DecidableEq, Fintype

/-- One bird event step, returning the new state and the dispatched effects. -/
def step (s : State) : Event → State × List Effect
  | .launch => (launch s, [])
  | .collide => (handleCollision s, [])
  | .activate => activateAbility s
  | .timerFire => timerFire s
  | .destroy => (destroy s, [])

/-- Running a list of bird events, accumulating all dispatched effects. -/
def run (s : State) : List Event → State × List Effect
  | [] => (s, [])
  | e :: es =>
    let r := step s e
    let r' := run r.1 es
    (r'.1, r.2 ++ r'.2)

/-- A split child as Bird.splitAbility constructs it: a blue split bird,
created launched, with hasCollided reset and abilityUsed already set, so it
can never dispatch an ability of its own. -/
def splitChild : State :=
  { type := .blue, isLaunched := true, abilityUsed := true,
    hasCollided := false, isDestroyed := false, pendingExplosion := false }

end Bird

/-- JavaScript's Math.atan2(y, x): the angle of the vector (x, y). -/
noncomputable def atan2 (y x : ℝ) : ℝ :=
  if 0 < x then Real.arctan (y / x)
  else if x < 0 then
    if 0 ≤ y then Real.arctan (y / x) + Real.pi
    else Real.arctan (y / x) - Real.pi
  else if 0 < y then Real.pi / 2
  else if y < 0 then -(Real.pi / 2)
  else 0

namespace Bird

/-- The angular offsets of the two split children from the parent's direction
(Bird.splitAbility: angles = [currentAngle - 0.3, currentAngle + 0.3]). -/
def splitAngles (currentAngle : ℝ) : List ℝ :=
  [currentAngle - 0.3, currentAngle + 0.3]

/-- The velocity Bird.splitAbility assigns to a child at the given absolute
angle: (cos angle * speed, sin angle * speed) where speed is the parent's
pre-split speed. -/
noncomputable def splitChildVelocity (speed angle : ℝ) : Vec :=
  ⟨Real.cos angle * speed, Real.sin angle * speed⟩

/-- Bird.splitAbility's child velocities: one child for each of the two split
angles around the parent's direction of travel, at the parent's pre-split
speed. -/
noncomputable def splitAbility (v : Vec) : List Vec :=
  (splitAngles (atan2 v.y v.x)).map (splitChildVelocity (Vec.norm v))

end Bird

/-- A Matter.js collision filter: group, category bitmask, mask bitmask. -/
structure CollisionFilter where
  group : ℤ
  category : ℕ
  mask : ℕ
deriving DecidableEq

/-- Matter.js Detector.canCollide: bodies in the same nonzero group always
collide when the group is positive and never when it is negative; otherwise
the category/mask test applies in both directions. -/
def canCollide (a b : CollisionFilter) : Bool :=
  if a.group = b.group ∧ a.group ≠ 0 then decide (0 < a.group)
  else decide (a.mask &&& b.category ≠ 0 ∧ b.mask &&& a.category ≠ 0)

/-- The collision filter of a split bird (Bird.ts constructor with the
isSplitBird flag, and Bird.splitAbility, which also sets the parent's group to
-1): group -1, category 1, full mask. -/
def splitBirdFilter : CollisionFilter :=
  { group := -1, category := 1, mask := 0xFFFFFFFF }

/-- The default Matter.js collision filter, carried by blocks, pigs and the
ground (none of which set a filter): group 0, category 1, full mask. -/
def defaultBodyFilter : CollisionFilter :=
  { group := 0, category := 1, mask := 0xFFFFFFFF }

namespace Level

/-- A level's three ascending star-score thresholds (Level.ts level config). -/
structure StarThresholds where
  oneStarScore : ℕ
  twoStarScore : ℕ
  threeStarScore : ℕ
deriving DecidableEq

/-- Level.getStarRating: 3/2/1 stars by the first threshold the score
reaches, else 0. -/
def getStarRating (cfg : StarThresholds) (score : ℕ) : ℕ :=
  if cfg.threeStarScore ≤ score then 3
  else if cfg.twoStarScore ≤ score then 2
  else if cfg.oneStarScore ≤ score then 1
  else 0

end Level

namespace Game

/-- The per-unused-bird completion bonus (Game.handleLevelComplete:
remainingBirds * 10000). -/
def birdBonusPerRemaining : ℕ := 10000

/-- The settle-fallback timeout in milliseconds (Game.checkGameState:
timeSinceLaunch > 15000). -/
def settleTimeoutMs : ℕ := 15000

/-- The round-controller fields of Game (Game.ts): roster size
(availableBirds.length), birdsUsed, the waiting queue length, the bird at the
slingshot (some isLaunched, or none), the score, the two terminal flags, and
pollActive (whether gameStateCheckInterval is armed). -/
structure State where
  rosterLen : ℕ
  birdsUsed : ℕ
  queueLen : ℕ
  currentBird : Option Bool
  score : ℕ
  isLevelComplete : Bool
  isGameOver : Bool
  pollActive : Bool
deriving DecidableEq

/-- The terminal and notable events the controller emits to collaborators. -/
inductive Effect where
  | levelCompleteEvt (score stars bonus : ℕ)
  | gameOverEvt (score stars : ℕ)
deriving DecidableEq

/-- Game.getRemainingBirds: max(0, roster - used), which is natural
subtraction here. -/
def getRemainingBirds (s : State) : ℕ :=
  s.rosterLen - s.birdsUsed

/-- Game.startLevel for a roster of size n: counters and flags reset; the
first roster entry becomes the current (unlaunched) bird and the rest wait in
the queue. -/
def startLevel (n : ℕ) : State :=
  { rosterLen := n, birdsUsed := 0, queueLen := n - 1,
    currentBird := if 0 < n then some false else none,
    score := 0, isLevelComplete := false, isGameOver := false,
    pollActive := false }

/-- Game.launchBird reached through the release path (onPointerUp requires an
unlaunched current bird): launches the current bird, increments birdsUsed and
arms the periodic game-state poll.  Any other state is a no-op. -/
def launchBird (s : State) : State :=
  match s.currentBird with
  | some false =>
    { s with currentBird := some true, birdsUsed := s.birdsUsed + 1,
             pollActive := true }
  | _ => s

/-- Game.handleLevelComplete: once only; sets the levelComplete flag, stops
the poll, adds the unused-bird bonus to the score and emits the
levelComplete event with the star rating of the post-bonus score. -/
def handleLevelComplete (cfg : Level.StarThresholds) (s : State) :
    State × List Effect :=
  if s.isLevelComplete then (s, [])
  else
    let birdBonus := getRemainingBirds s * birdBonusPerRemaining
    let s₁ := { s with isLevelComplete := true, pollActive := false,
                       score := s.score + birdBonus }
    let stars := Level.getStarRating cfg s₁.score
    (s₁, [.levelCompleteEvt s₁.score stars birdBonus])

/-- Game.handleGameOver: once only; sets the gameOver flag, stops the poll
and emits the gameOver event with the star rating of the final score. -/
def handleGameOver (cfg : Level.StarThresholds) (s : State) :
    State × List Effect :=
  if s.isGameOver then (s, [])
  else
    let s₁ := { s with isGameOver := true, pollActive := false }
    (s₁, [.gameOverEvt s₁.score (Level.getStarRating cfg s₁.score)])

/-- Game.spawnNextBird: no-op in a terminal state; otherwise stops the poll,
clears the current bird and promotes the next queued bird (or, when the queue
is empty but the roster is not exhausted, constructs a fresh bird) to the
slingshot, unlaunched. -/
def spawnNextBird (s : State) : State :=
  if s.isLevelComplete ∨ s.isGameOver then s
  else
    let s₁ := { s with pollActive := false, currentBird := none }
    if 0 < s₁.queueLen then
      { s₁ with queueLen := s₁.queueLen - 1, currentBird := some false }
    else if s₁.birdsUsed < s₁.rosterLen then
      { s₁ with currentBird := some false }
    else s₁

/-- Game.checkGameState, the periodic poll.  Oracles stand for what the poll
reads from the world: allPigsDead (every target destroyed), settledObs (the
active bird's isSettled) and timeSinceLaunch (Date.now() - lastCheckTime).  In
a terminal state it only stops the poll; otherwise all pigs dead completes the
level; otherwise a settled bird, or the 15 s timeout fallback, either ends the
round (queue empty and roster exhausted) or advances to the next bird. -/
def checkGameState (cfg : Level.StarThresholds) (s : State)
    (allPigsDead settledObs : Bool) (timeSinceLaunch : ℕ) :
    State × List Effect :=
  if s.isLevelComplete ∨ s.isGameOver then
    ({ s with pollActive := false }, [])
  else if allPigsDead then handleLevelComplete cfg s
  else
    let birdSettled := s.currentBird.isSome && settledObs
    if birdSettled then
      if s.queueLen = 0 ∧ s.rosterLen ≤ s.birdsUsed then handleGameOver cfg s
      else (spawnNextBird s, [])
    else if settleTimeoutMs < timeSinceLaunch then
      if s.queueLen = 0 ∧ s.rosterLen ≤ s.birdsUsed then handleGameOver cfg s
      else (spawnNextBird s, [])
    else (s, [])

/-- The round-controller events: a slingshot release (launch) and one firing
of the periodic poll with its oracle readings.  The poll only runs while the
interval is armed. -/
inductive Event where
  | launch
  | poll (allPigsDead settledObs : Bool) (timeSinceLaunch : ℕ)
deriving DecidableEq

/-- One controller step. -/
def step (cfg : Level.StarThresholds) (s : State) : Event → State × List Effect
  | .launch => (launchBird s, [])
  | .poll pd so t =>
    if s.pollActive then checkGameState cfg s pd so t else (s, [])

/-- Running a list of controller events (states only). -/
def run (cfg : Level.StarThresholds) (s : State) (es : List Event) : State :=
  es.foldl (fun t e => (step cfg t e).1) s

/-- The controller state reached by playing a list of events in a round
started on a roster of size n. -/
def round (cfg : Level.StarThresholds) (n : ℕ) (es : List Event) : State :=
  run cfg (startLevel n) es

/-- 1 when an unlaunched bird sits at the slingshot (a launch can succeed),
else 0.  Verification bookkeeping for the roster budget. -/
def curSlot (s : State) : ℕ := if s.currentBird = some false then 1 else 0

/-- The controller invariant: the roster budget covers the birds already used,
the waiting queue and a launchable current bird; the terminal flags are
mutually exclusive; and while the poll interval is armed, or after a terminal
flag is set, no unlaunched bird sits at the slingshot. -/
def Inv (s : State) : Prop :=
  s.birdsUsed + s.queueLen + curSlot s ≤ s.rosterLen ∧
  ¬(s.isLevelComplete = true ∧ s.isGameOver = true) ∧
  (s.pollActive = true → s.currentBird ≠ some false) ∧
  ((s.isLevelComplete = true ∨ s.isGameOver = true) → s.currentBird ≠ some false)

end Game

/-- The destructible-state invariant for a pig: health is non-negative and
the destroyed flag holds exactly when health has reached 0. -/
def Pig.Inv (s : Pig.State) : Prop :=
  0 ≤ s.health ∧ (s.isDestroyed = true ↔ s.health ≤ 0)

/-! ## Helper lemmas for the bird ability state machine -/

/-- Bookkeeping weight bounding how many detonations the collision path can
still produce: one for an armed timer, one for a not-yet-consumed first
collision. -/
def Bird.explodeWeight (s : Bird.State) : ℕ :=
  (if s.pendingExplosion then 1 else 0) + (if s.hasCollided then 0 else 1)

set_option maxRecDepth 8192 in
theorem Bird.step_explode_bound :
    ∀ (s : Bird.State) (e : Bird.Event), e ≠ .activate →
      (Bird.step s e).2.count .explode + Bird.explodeWeight (Bird.step s e).1 ≤
        Bird.explodeWeight s := by
  decide

theorem Bird.run_explode_bound :
    ∀ (es : List Bird.Event) (s : Bird.State), (∀ e ∈ es, e ≠ .activate) →
      (Bird.run s es).2.count .explode + Bird.explodeWeight (Bird.run s es).1 ≤
        Bird.explodeWeight s := by
  intro es
  induction es with
  | nil => intro s _; simp [Bird.run]
  | cons e es ih =>
    intro s h
    have he : e ≠ .activate := h e (List.mem_cons_self e es)
    have hes : ∀ x ∈ es, x ≠ Bird.Event.activate :=
      fun x hx => h x (List.mem_cons_of_mem e hx)
    have h1 := Bird.step_explode_bound s e he
    have h2 := ih (Bird.step s e).1 hes
    simp only [Bird.run, List.count_append]
    omega

/-! ## Claims about the projectile ability state machine -/

/-- Claim C2, counterexample: a launched black bird that collides and
auto-detonates (collision, then the deferred timer) can have the detonation
applied a second time by a subsequent manual activateAbility() call, because
the auto-detonation path never sets abilityUsed. -/
theorem C2_counterexample :
    (Bird.run (Bird.launch (Bird.mkBird .black))
        [.collide, .timerFire, .activate]).2 =
      [Bird.Effect.explode, Bird.Effect.explode] := by
  decide

/-- Claim C2 (amended): for a launched black bird whose ability is not
manually used, the first collision triggers the detonation exactly once,
after the deferred timer; no sequence of further collisions or timer firings
applies the detonation a second time.  (A subsequent manual activateAbility()
call, however, does apply it a second time; see the counterexample.) -/
theorem C2_black_autodetonation_once :
    ∀ es : List Bird.Event, (∀ e ∈ es, e ≠ .activate) →
      (Bird.run (Bird.launch (Bird.mkBird .black)) es).2.count .explode ≤ 1 ∧
      (Bird.run (Bird.launch (Bird.mkBird .black))
          [.collide, .timerFire]).2 = [Bird.Effect.explode] := by
  intro es h
  refine ⟨?_, by decide⟩
  have hb := Bird.run_explode_bound es (Bird.launch (Bird.mkBird .black)) h
  have hw : Bird.explodeWeight (Bird.launch (Bird.mkBird .black)) = 1 := by decide
  omega

/-- Witness for C2: a concrete activate-free event sequence with repeated
collisions and timer firings detonates at most once, and the canonical
collide-then-timer sequence detonates exactly once. -/
theorem C2_black_autodetonation_once_witness :
    (Bird.run (Bird.launch (Bird.mkBird .black))
        [.collide, .collide, .timerFire, .timerFire, .collide]).2.count .explode ≤ 1 ∧
    (Bird.run (Bird.launch (Bird.mkBird .black))
        [.collide, .timerFire]).2 = [Bird.Effect.explode] :=
  C2_black_autodetonation_once
    [.collide, .collide, .timerFire, .timerFire, .collide] (by decide)

set_option maxRecDepth 8192 in
/-- Claim C3: for every projectile state, abilityUsed never reverts under any
event; when abilityUsed is set, activateAbility changes no state and
dispatches no effect; and immediately re-calling activateAbility after any
activateAbility call is a no-op with no effects. -/
theorem C3_activateAbility_one_shot :
    ∀ s : Bird.State,
      (∀ e : Bird.Event, s.abilityUsed = true →
        (Bird.step s e).1.abilityUsed = true) ∧
      (s.abilityUsed = true → Bird.activateAbility s = (s, [])) ∧
      (Bird.activateAbility (Bird.activateAbility s).1 =
        ((Bird.activateAbility s).1, [])) := by
  decide

/-- Witness for C3: a launched red bird whose ability is already used keeps
abilityUsed across a collision and activates to a no-op. -/
theorem C3_activateAbility_one_shot_witness :
    (Bird.step { Bird.mkBird .red with isLaunched := true, abilityUsed := true }
        .collide).1.abilityUsed = true ∧
    Bird.activateAbility
        { Bird.mkBird .red with isLaunched := true, abilityUsed := true } =
      ({ Bird.mkBird .red with isLaunched := true, abilityUsed := true }, []) :=
  ⟨(C3_activateAbility_one_shot
      { Bird.mkBird .red with isLaunched := true, abilityUsed := true }).1
      .collide rfl,
   (C3_activateAbility_one_shot
      { Bird.mkBird .red with isLaunched := true, abilityUsed := true }).2.1 rfl⟩

/-! ## Helper lemmas for the round controller -/

namespace Game

theorem birdsUsed_poll (cfg : Level.StarThresholds) (s : State)
    (pd so : Bool) (t : ℕ) :
    (step cfg s (.poll pd so t)).1.birdsUsed = s.birdsUsed := by
  simp only [step, checkGameState, handleLevelComplete, handleGameOver,
    spawnNextBird]
  split_ifs <;> rfl

theorem rosterLen_step (cfg : Level.StarThresholds) (s : State) (e : Event) :
    (step cfg s e).1.rosterLen = s.rosterLen := by
  cases e with
  | launch =>
    simp only [step, launchBird]
    rcases hc : s.currentBird with _ | b
    · rfl
    · cases b <;> rfl
  | poll pd so t =>
    simp only [step, checkGameState, handleLevelComplete, handleGameOver,
      spawnNextBird]
    split_ifs <;> rfl

theorem rosterLen_run (cfg : Level.StarThresholds) (es : List Event) :
    ∀ s : State, (run cfg s es).rosterLen = s.rosterLen := by
  induction es with
  | nil => intro s; simp [run]
  | cons e es ih =>
    intro s
    have hh : run cfg s (e :: es) = run cfg (step cfg s e).1 es := by
      simp [run, List.foldl_cons]
    rw [hh, ih, rosterLen_step]

theorem inv_startLevel (n : ℕ) : Inv (startLevel n) := by
  unfold Inv startLevel curSlot
  by_cases h : 0 < n <;> simp [h] <;> omega

theorem inv_launchBird (s : State) (h : Inv s) : Inv (launchBird s) := by
  obtain ⟨hA, hB, hC, hD⟩ := h
  unfold launchBird
  rcases hc : s.currentBird with _ | b
  · simpa [hc] using ⟨hA, hB, hC, hD⟩
  · cases b
    · refine ⟨?_, ?_, ?_, ?_⟩ <;> simp_all [curSlot] ; omega
    · simpa [hc] using ⟨hA, hB, hC, hD⟩

theorem inv_spawnNextBird (s : State) (h : Inv s) : Inv (spawnNextBird s) := by
  obtain ⟨hA, hB, hC, hD⟩ := h
  simp only [spawnNextBird]
  split_ifs with h1 h2 h3
  · exact ⟨hA, hB, hC, hD⟩
  · refine ⟨?_, ?_, ?_, ?_⟩ <;> simp_all [curSlot] ; omega
  · refine ⟨?_, ?_, ?_, ?_⟩ <;> simp_all [curSlot] ; omega
  · refine ⟨?_, ?_, ?_, ?_⟩ <;> simp_all [curSlot] ; omega

theorem inv_handleLevelComplete (cfg : Level.StarThresholds) (s : State)
    (h : Inv s) (hover : s.isGameOver = false)
    (hcur : s.currentBird ≠ some false) :
    Inv (handleLevelComplete cfg s).1 := by
  obtain ⟨hA, hB, hC, hD⟩ := h
  simp only [handleLevelComplete]
  split_ifs with h1
  · exact ⟨hA, hB, hC, hD⟩
  · refine ⟨?_, ?_, ?_, ?_⟩ <;> simp_all [curSlot]

theorem inv_handleGameOver (cfg : Level.StarThresholds) (s : State)
    (h : Inv s) (hcomp : s.isLevelComplete = false)
    (hcur : s.currentBird ≠ some false) :
    Inv (handleGameOver cfg s).1 := by
  obtain ⟨hA, hB, hC, hD⟩ := h
  simp only [handleGameOver]
  split_ifs with h1
  · exact ⟨hA, hB, hC, hD⟩
  · refine ⟨?_, ?_, ?_, ?_⟩ <;> simp_all [curSlot]

theorem inv_checkGameState (cfg : Level.StarThresholds) (s : State)
    (pd so : Bool) (t : ℕ) (h : Inv s) (hp : s.pollActive = true) :
    Inv (checkGameState cfg s pd so t).1 := by
  have hcur : s.currentBird ≠ some false := h.2.2.1 hp
  simp only [checkGameState]
  split_ifs with h1 h2 h3 h4 h5 h6
  · obtain ⟨hA, hB, hC, hD⟩ := h
    exact ⟨hA, hB, by simp, fun _ => hcur⟩
  · have hover : s.isGameOver = false := by
      rcases h1' : s.isGameOver <;> simp_all
    exact inv_handleLevelComplete cfg s h hover hcur
  · have hcomp : s.isLevelComplete = false := by
      rcases h1' : s.isLevelComplete <;> simp_all
    exact inv_handleGameOver cfg s h hcomp hcur
  · exact inv_spawnNextBird s h
  · have hcomp : s.isLevelComplete = false := by
      rcases h1' : s.isLevelComplete <;> simp_all
    exact inv_handleGameOver cfg s h hcomp hcur
  · exact inv_spawnNextBird s h
  · exact h

theorem inv_step (cfg : Level.StarThresholds) (s : State) (e : Event)
    (h : Inv s) : Inv (step cfg s e).1 := by
  cases e with
  | launch => exact inv_launchBird s h
  | poll pd so t =>
    simp only [step]
    by_cases hp : s.pollActive = true
    · simpa [hp] using inv_checkGameState cfg s pd so t h hp
    · simp only [Bool.not_eq_true] at hp
      simpa [hp] using h

theorem inv_run (cfg : Level.StarThresholds) (es : List Event) :
    ∀ s : State, Inv s → Inv (run cfg s es) := by
  induction es with
  | nil => intro s h; simpa [run] using h
  | cons e es ih =>
    intro s h
    have hh : run cfg s (e :: es) = run cfg (step cfg s e).1 es := by
      simp [run, List.foldl_cons]
    rw [hh]
    exact ih _ (inv_step cfg s e h)

theorem step_terminal_freeze (cfg : Level.StarThresholds) (s : State)
    (e : Event) (hcur : s.currentBird ≠ some false)
    (ht : s.isLevelComplete = true ∨ s.isGameOver = true) :
    (step cfg s e).1.birdsUsed = s.birdsUsed ∧
    (step cfg s e).1.queueLen = s.queueLen ∧
    (step cfg s e).1.currentBird = s.currentBird ∧
    (step cfg s e).1.score = s.score ∧
    (step cfg s e).1.isLevelComplete = s.isLevelComplete ∧
    (step cfg s e).1.isGameOver = s.isGameOver ∧
    (step cfg s e).2 = [] := by
  cases e with
  | launch =>
    simp only [step, launchBird]
    rcases hc : s.currentBird with _ | b
    · simp [hc]
    · cases b
      · exact absurd hc hcur
      · simp [hc]
  | poll pd so t =>
    simp only [step, checkGameState]
    by_cases hp : s.pollActive = true
    · rw [if_pos hp, if_pos ht]
      simp
    · simp only [Bool.not_eq_true] at hp
      simp [hp]

theorem step_birdsUsed_char (cfg : Level.StarThresholds) (s : State)
    (e : Event) :
    ((step cfg s e).1.birdsUsed = s.birdsUsed ∧
      ¬(e = .launch ∧ s.currentBird = some false)) ∨
    ((step cfg s e).1.birdsUsed = s.birdsUsed + 1 ∧
      e = .launch ∧ s.currentBird = some false) := by
  cases e with
  | launch =>
    rcases hc : s.currentBird with _ | b
    · exact Or.inl ⟨by simp [step, launchBird, hc], by simp [hc]⟩
    · cases b
      · exact Or.inr ⟨by simp [step, launchBird, hc], by simp [hc]⟩
      · exact Or.inl ⟨by simp [step, launchBird, hc], by simp [hc]⟩
  | poll pd so t =>
    exact Or.inl ⟨birdsUsed_poll cfg s pd so t, by simp⟩

end Game

/-! ## Claims about the round controller -/

/-- Claim C5: in a round on a roster of size n, birdsUsed never exceeds n and
a step increments it exactly when a launch succeeds on an unlaunched current
bird (so the launch operation succeeds at most n times); the levelComplete
and gameOver flags are never both set; and once a terminal flag is set, every
further event leaves all controller state other than the poll interval
unchanged and emits no event. -/
theorem C5_roster_budget_and_terminal_flags (cfg : Level.StarThresholds)
    (n : ℕ) (es : List Game.Event) :
    (Game.round cfg n es).birdsUsed ≤ n ∧
    ¬((Game.round cfg n es).isLevelComplete = true ∧
      (Game.round cfg n es).isGameOver = true) ∧
    (∀ e : Game.Event,
      ((Game.round cfg n es).isLevelComplete = true ∨
       (Game.round cfg n es).isGameOver = true) →
      (Game.step cfg (Game.round cfg n es) e).1.birdsUsed =
        (Game.round cfg n es).birdsUsed ∧
      (Game.step cfg (Game.round cfg n es) e).1.queueLen =
        (Game.round cfg n es).queueLen ∧
      (Game.step cfg (Game.round cfg n es) e).1.currentBird =
        (Game.round cfg n es).currentBird ∧
      (Game.step cfg (Game.round cfg n es) e).1.score =
        (Game.round cfg n es).score ∧
      (Game.step cfg (Game.round cfg n es) e).1.isLevelComplete =
        (Game.round cfg n es).isLevelComplete ∧
      (Game.step cfg (Game.round cfg n es) e).1.isGameOver =
        (Game.round cfg n es).isGameOver ∧
      (Game.step cfg (Game.round cfg n es) e).2 = []) ∧
    (∀ e : Game.Event,
      ((Game.step cfg (Game.round cfg n es) e).1.birdsUsed =
          (Game.round cfg n es).birdsUsed ∧
        ¬(e = .launch ∧ (Game.round cfg n es).currentBird = some false)) ∨
      ((Game.step cfg (Game.round cfg n es) e).1.birdsUsed =
          (Game.round cfg n es).birdsUsed + 1 ∧
        e = .launch ∧ (Game.round cfg n es).currentBird = some false)) := by
  have hInv := Game.inv_run cfg es (Game.startLevel n) (Game.inv_startLevel n)
  have hroster := Game.rosterLen_run cfg es (Game.startLevel n)
  refine ⟨?_, ?_, ?_, ?_⟩
  · have h1 := hInv.1
    have h2 : (Game.run cfg (Game.startLevel n) es).rosterLen = n := by
      rw [hroster]; rfl
    unfold Game.round
    omega
  · exact hInv.2.1
  · intro e ht
    exact Game.step_terminal_freeze cfg (Game.round cfg n es) e
      (hInv.2.2.2 ht) ht
  · intro e
    exact Game.step_birdsUsed_char cfg (Game.round cfg n es) e

/-- Witness for C5: a roster of 1 reaches gameOver after one launch and one
settled poll, and from that terminal state a further launch event changes
nothing and emits nothing. -/
theorem C5_roster_budget_and_terminal_flags_witness :
    (Game.round ⟨1, 2, 3⟩ 1 [.launch, .poll false true 0]).birdsUsed ≤ 1 ∧
    (Game.step ⟨1, 2, 3⟩ (Game.round ⟨1, 2, 3⟩ 1 [.launch, .poll false true 0])
        .launch).2 = [] ∧
    (Game.step ⟨1, 2, 3⟩ (Game.round ⟨1, 2, 3⟩ 1 [.launch, .poll false true 0])
        .launch).1.birdsUsed =
      (Game.round ⟨1, 2, 3⟩ 1 [.launch, .poll false true 0]).birdsUsed := by
  have h := C5_roster_budget_and_terminal_flags ⟨1, 2, 3⟩ 1
    [.launch, .poll false true 0]
  have hfr := h.2.2.1 .launch (by decide)
  exact ⟨h.1, hfr.2.2.2.2.2.2, hfr.1⟩

/-- Claim C9: from any non-terminal polling state, a poll firing in which the
active projectile is not settled but the per-turn timeout has elapsed does
not stall: it either ends the round in gameOver (queue empty and roster
exhausted) or advances, putting a fresh unlaunched bird at the slingshot and
shortening the queue. -/
theorem C9_settle_timeout_advances (cfg : Level.StarThresholds)
    (s : Game.State) (t : ℕ) (hp : s.pollActive = true)
    (hcf : s.isLevelComplete = false) (hof : s.isGameOver = false)
    (ht : Game.settleTimeoutMs < t) :
    if s.queueLen = 0 ∧ s.rosterLen ≤ s.birdsUsed then
      (Game.step cfg s (.poll false false t)).1.isGameOver = true
    else
      (Game.step cfg s (.poll false false t)).1.currentBird = some false ∧
      (Game.step cfg s (.poll false false t)).1.queueLen = s.queueLen - 1 ∧
      (Game.step cfg s (.poll false false t)).1.isLevelComplete = false ∧
      (Game.step cfg s (.poll false false t)).1.isGameOver = false := by
  have hterm : ¬(s.isLevelComplete = true ∨ s.isGameOver = true) := by
    simp [hcf, hof]
  by_cases hq : s.queueLen = 0 ∧ s.rosterLen ≤ s.birdsUsed
  · rw [if_pos hq]
    simp only [Game.step, Game.checkGameState, Game.handleGameOver]
    rw [if_pos hp, if_neg hterm]
    simp [hq, hof, ht, Nat.not_lt.mpr (le_refl _)]
  · rw [if_neg hq]
    simp only [Game.step, Game.checkGameState, Game.spawnNextBird]
    rw [if_pos hp, if_neg hterm]
    rcases Nat.eq_zero_or_pos s.queueLen with hq0 | hq0
    · have hused : s.birdsUsed < s.rosterLen := by
        by_contra hcon
        exact hq ⟨hq0, Nat.le_of_not_lt hcon⟩
      have hle : ¬ s.rosterLen ≤ s.birdsUsed := Nat.not_le.mpr hused
      simp [hq, ht, hterm, hq0, hle, hused, hcf, hof]
    · simp [hq, ht, hterm, hq0, hcf, hof]

/-- Witness for C9: a roster of 2 after one launch; the timed-out poll puts
the queued second bird, unlaunched, at the slingshot. -/
theorem C9_settle_timeout_advances_witness :
    if (Game.round ⟨1, 2, 3⟩ 2 [.launch]).queueLen = 0 ∧
        (Game.round ⟨1, 2, 3⟩ 2 [.launch]).rosterLen ≤
          (Game.round ⟨1, 2, 3⟩ 2 [.launch]).birdsUsed then
      (Game.step ⟨1, 2, 3⟩ (Game.round ⟨1, 2, 3⟩ 2 [.launch])
          (.poll false false 15001)).1.isGameOver = true
    else
      (Game.step ⟨1, 2, 3⟩ (Game.round ⟨1, 2, 3⟩ 2 [.launch])
          (.poll false false 15001)).1.currentBird = some false ∧
      (Game.step ⟨1, 2, 3⟩ (Game.round ⟨1, 2, 3⟩ 2 [.launch])
          (.poll false false 15001)).1.queueLen =
        (Game.round ⟨1, 2, 3⟩ 2 [.launch]).queueLen - 1 ∧
      (Game.step ⟨1, 2, 3⟩ (Game.round ⟨1, 2, 3⟩ 2 [.launch])
          (.poll false false 15001)).1.isLevelComplete = false ∧
      (Game.step ⟨1, 2, 3⟩ (Game.round ⟨1, 2, 3⟩ 2 [.launch])
          (.poll false false 15001)).1.isGameOver = false :=
  C9_settle_timeout_advances ⟨1, 2, 3⟩ (Game.round ⟨1, 2, 3⟩ 2 [.launch])
    15001 (by decide) (by decide) (by decide) (by decide)

/-- Claim C8: a poll that observes every target destroyed, in a non-terminal
polling state, sets levelComplete, adds the win bonus (unused roster entries
times the per-unused-bird constant) to the score, and emits the completion
event whose star rating is computed from the post-bonus score; a target of
health 30 is destroyed by a single application of damage at least 30; and in
the concrete scenario of a roster of 3 with one launch, the emitted bonus is
2 times the per-unused-bird constant. -/
theorem C8_level_complete_bonus (cfg : Level.StarThresholds) (s : Game.State)
    (so : Bool) (t : ℕ) (hp : s.pollActive = true)
    (hcf : s.isLevelComplete = false) (hof : s.isGameOver = false) :
    (Game.step cfg s (.poll true so t) =
      ({ s with isLevelComplete := true, pollActive := false,
                score := s.score +
                  Game.getRemainingBirds s * Game.birdBonusPerRemaining },
       [Game.Effect.levelCompleteEvt
          (s.score + Game.getRemainingBirds s * Game.birdBonusPerRemaining)
          (Level.getStarRating cfg
            (s.score + Game.getRemainingBirds s * Game.birdBonusPerRemaining))
          (Game.getRemainingBirds s * Game.birdBonusPerRemaining)])) ∧
    (∀ d : ℝ, 30 ≤ d →
      (Pig.takeDamage (Pig.init .small) d).isDestroyed = true) ∧
    (Game.round cfg 3 [.launch]).birdsUsed = 1 ∧
    (Game.step cfg (Game.round cfg 3 [.launch]) (.poll true false 0)).2 =
      [Game.Effect.levelCompleteEvt (2 * Game.birdBonusPerRemaining)
        (Level.getStarRating cfg (2 * Game.birdBonusPerRemaining))
        (2 * Game.birdBonusPerRemaining)] := by
  have hterm : ¬(s.isLevelComplete = true ∨ s.isGameOver = true) := by
    simp [hcf, hof]
  have hs3 : Game.round cfg 3 [.launch] =
      { rosterLen := 3, birdsUsed := 1, queueLen := 2,
        currentBird := some true, score := 0, isLevelComplete := false,
        isGameOver := false, pollActive := true } := by
    simp [Game.round, Game.run, Game.step, Game.launchBird, Game.startLevel]
  refine ⟨?_, ?_, ?_, ?_⟩
  · simp only [Game.step, Game.checkGameState, Game.handleLevelComplete]
    rw [if_pos hp, if_neg hterm]
    simp [hcf]
  · intro d hd
    have h0 : Pig.maxHealthOf .small - d ≤ 0 := by
      simp only [Pig.maxHealthOf]
      linarith
    simp [Pig.takeDamage, Pig.init, h0]
  · rw [hs3]
  · rw [hs3]
    norm_num [Game.step, Game.checkGameState, Game.handleLevelComplete,
      Game.getRemainingBirds, Game.birdBonusPerRemaining]

/-- Witness for C8: damage exactly 30 destroys the health-30 target, and the
roster-of-3 scenario emits the completion event with bonus 20000 = 2 x 10000
and the rating of the post-bonus score. -/
theorem C8_level_complete_bonus_witness :
    (Pig.takeDamage (Pig.init .small) 30).isDestroyed = true ∧
    (Game.step ⟨5000, 15000, 25000⟩
        (Game.round ⟨5000, 15000, 25000⟩ 3 [.launch]) (.poll true false 0)).2 =
      [Game.Effect.levelCompleteEvt (2 * Game.birdBonusPerRemaining)
        (Level.getStarRating ⟨5000, 15000, 25000⟩
          (2 * Game.birdBonusPerRemaining))
        (2 * Game.birdBonusPerRemaining)] := by
  have h := C8_level_complete_bonus ⟨5000, 15000, 25000⟩
    (Game.round ⟨5000, 15000, 25000⟩ 3 [.launch]) false 0
    (by decide) (by decide) (by decide)
  exact ⟨h.2.1 30 (by norm_num), h.2.2.2⟩

/-- Claim C10: a split child is created with abilityUsed and isLaunched
already true, so activateAbility on it is a complete no-op dispatching no
effect; and the controller's poll path never changes birdsUsed (only the
launch path increments it, and split children are never routed through it). -/
theorem C10_split_children_no_ability_no_budget :
    Bird.splitChild.abilityUsed = true ∧
    Bird.splitChild.isLaunched = true ∧
    Bird.activateAbility Bird.splitChild = (Bird.splitChild, []) ∧
    (∀ (cfg : Level.StarThresholds) (s : Game.State) (pd so : Bool) (t : ℕ),
      (Game.step cfg s (.poll pd so t)).1.birdsUsed = s.birdsUsed) :=
  ⟨rfl, rfl, rfl, fun cfg s pd so t => Game.birdsUsed_poll cfg s pd so t⟩

/-! ## Helper lemmas for the destructible damage model -/

theorem Pig.takeDamage_inv (s : Pig.State) (d : ℝ) (hd : 0 ≤ d)
    (h : Pig.Inv s) :
    Pig.Inv (Pig.takeDamage s d) ∧ (Pig.takeDamage s d).health ≤ s.health := by
  simp only [Pig.takeDamage, Pig.Inv] at *
  split_ifs with hc
  · exact ⟨⟨le_refl 0, by simp⟩, h.1⟩
  · refine ⟨⟨?_, ?_, fun hle => absurd hle hc⟩, ?_⟩
    · show (0:ℝ) ≤ s.health - d
      linarith [lt_of_not_le hc]
    · intro hdest
      exact absurd (by linarith [h.2.mp hdest] : s.health - d ≤ 0) hc
    · show s.health - d ≤ s.health
      linarith

theorem Pig.takeDamage_destroyed_mono (s : Pig.State) (d : ℝ)
    (h : s.isDestroyed = true) :
    (Pig.takeDamage s d).isDestroyed = true := by
  simp only [Pig.takeDamage]
  split_ifs <;> simp [h]

theorem Pig.runDamage_inv : ∀ (ds : List ℝ) (s : Pig.State),
    (∀ d ∈ ds, 0 ≤ d) → Pig.Inv s →
    Pig.Inv (Pig.runDamage s ds) ∧ (Pig.runDamage s ds).health ≤ s.health := by
  intro ds
  induction ds with
  | nil => intro s _ h; exact ⟨by simpa [Pig.runDamage] using h, by simp [Pig.runDamage]⟩
  | cons d ds ih =>
    intro s hds h
    have hd : 0 ≤ d := hds d (List.mem_cons_self d ds)
    have hrest : ∀ x ∈ ds, (0:ℝ) ≤ x := fun x hx => hds x (List.mem_cons_of_mem d hx)
    have h1 := Pig.takeDamage_inv s d hd h
    have h2 := ih (Pig.takeDamage s d) hrest h1.1
    have hfold : Pig.runDamage s (d :: ds) = Pig.runDamage (Pig.takeDamage s d) ds := by
      simp [Pig.runDamage, List.foldl_cons]
    rw [hfold]
    exact ⟨h2.1, le_trans h2.2 h1.2⟩

theorem Pig.runDamage_destroyed_mono : ∀ (ds : List ℝ) (s : Pig.State),
    s.isDestroyed = true → (Pig.runDamage s ds).isDestroyed = true := by
  intro ds
  induction ds with
  | nil => intro s h; simpa [Pig.runDamage] using h
  | cons d ds ih =>
    intro s h
    have hfold : Pig.runDamage s (d :: ds) = Pig.runDamage (Pig.takeDamage s d) ds := by
      simp [Pig.runDamage, List.foldl_cons]
    rw [hfold]
    exact ih _ (Pig.takeDamage_destroyed_mono s d h)

theorem Pig.inv_init (sz : PigSize) : Pig.Inv (Pig.init sz) := by
  cases sz <;> simp [Pig.Inv, Pig.init, Pig.maxHealthOf] <;> norm_num

theorem Block.takeDamage_bounds (s : Block.State) (d : ℝ) (hd : 0 ≤ d)
    (h : 0 ≤ s.health) :
    0 ≤ (Block.takeDamage s d).health ∧
    (Block.takeDamage s d).health ≤ s.health := by
  simp only [Block.takeDamage]
  split_ifs with hc
  · exact ⟨le_refl 0, h⟩
  · constructor
    · show (0:ℝ) ≤ s.health - d
      linarith [lt_of_not_le hc]
    · show s.health - d ≤ s.health
      linarith

theorem Block.takeDamage_stays_destroyed (s : Block.State) (d : ℝ)
    (hd : 0 ≤ d) (h : s.health ≤ 0) :
    (Block.takeDamage s d).health ≤ 0 := by
  simp only [Block.takeDamage]
  split_ifs with hc
  · exact le_refl 0
  · exact absurd (by linarith : s.health - d ≤ 0) hc

theorem Block.runDamage_bounds : ∀ (ds : List ℝ) (s : Block.State),
    (∀ d ∈ ds, 0 ≤ d) → 0 ≤ s.health →
    0 ≤ (Block.runDamage s ds).health ∧
    (Block.runDamage s ds).health ≤ s.health := by
  intro ds
  induction ds with
  | nil => intro s _ h; exact ⟨by simpa [Block.runDamage] using h, by simp [Block.runDamage]⟩
  | cons d ds ih =>
    intro s hds h
    have hd : 0 ≤ d := hds d (List.mem_cons_self d ds)
    have hrest : ∀ x ∈ ds, (0:ℝ) ≤ x := fun x hx => hds x (List.mem_cons_of_mem d hx)
    have h1 := Block.takeDamage_bounds s d hd h
    have h2 := ih (Block.takeDamage s d) hrest h1.1
    have hfold : Block.runDamage s (d :: ds) = Block.runDamage (Block.takeDamage s d) ds := by
      simp [Block.runDamage, List.foldl_cons]
    rw [hfold]
    exact ⟨h2.1, le_trans h2.2 h1.2⟩

theorem Block.runDamage_stays_destroyed : ∀ (ds : List ℝ) (s : Block.State),
    (∀ d ∈ ds, 0 ≤ d) → s.health ≤ 0 →
    (Block.runDamage s ds).health ≤ 0 := by
  intro ds
  induction ds with
  | nil => intro s _ h; simpa [Block.runDamage] using h
  | cons d ds ih =>
    intro s hds h
    have hd : 0 ≤ d := hds d (List.mem_cons_self d ds)
    have hrest : ∀ x ∈ ds, (0:ℝ) ≤ x := fun x hx => hds x (List.mem_cons_of_mem d hx)
    have hfold : Block.runDamage s (d :: ds) = Block.runDamage (Block.takeDamage s d) ds := by
      simp [Block.runDamage, List.foldl_cons]
    rw [hfold]
    exact ih _ hrest (Block.takeDamage_stays_destroyed s d hd h)

/-! ## Claims about the destructible damage model -/

/-- Claim C1: under any sequence of (non-negative) collision damage amounts,
a pig's health stays non-negative and is non-increasing along the sequence,
its destroyed flag holds exactly when health has reached 0 and never reverts;
and a block's health behaves the same way with shouldDestroy as its (derived,
terminal) destroyed flag. -/
theorem C1_destructible_health_invariants (sz : PigSize)
    (mat : BlockMaterial) (t₁ t₂ : List ℝ)
    (h1 : ∀ d ∈ t₁, 0 ≤ d) (h2 : ∀ d ∈ t₂, 0 ≤ d) :
    (0 ≤ (Pig.runDamage (Pig.init sz) t₁).health) ∧
    ((Pig.runDamage (Pig.init sz) (t₁ ++ t₂)).health ≤
      (Pig.runDamage (Pig.init sz) t₁).health) ∧
    ((Pig.runDamage (Pig.init sz) t₁).isDestroyed = true ↔
      (Pig.runDamage (Pig.init sz) t₁).health ≤ 0) ∧
    ((Pig.runDamage (Pig.init sz) t₁).isDestroyed = true →
      (Pig.runDamage (Pig.init sz) (t₁ ++ t₂)).isDestroyed = true) ∧
    (0 ≤ (Block.runDamage (Block.init mat) t₁).health) ∧
    ((Block.runDamage (Block.init mat) (t₁ ++ t₂)).health ≤
      (Block.runDamage (Block.init mat) t₁).health) ∧
    (Block.shouldDestroy (Block.runDamage (Block.init mat) t₁) ↔
      (Block.runDamage (Block.init mat) t₁).health ≤ 0) ∧
    (Block.shouldDestroy (Block.runDamage (Block.init mat) t₁) →
      Block.shouldDestroy (Block.runDamage (Block.init mat) (t₁ ++ t₂))) := by
  have happ : Pig.runDamage (Pig.init sz) (t₁ ++ t₂) =
      Pig.runDamage (Pig.runDamage (Pig.init sz) t₁) t₂ := by
    simp [Pig.runDamage, List.foldl_append]
  have happB : Block.runDamage (Block.init mat) (t₁ ++ t₂) =
      Block.runDamage (Block.runDamage (Block.init mat) t₁) t₂ := by
    simp [Block.runDamage, List.foldl_append]
  have hP1 := Pig.runDamage_inv t₁ (Pig.init sz) h1 (Pig.inv_init sz)
  have hP2 := Pig.runDamage_inv t₂ (Pig.runDamage (Pig.init sz) t₁) h2 hP1.1
  have hBinit : 0 ≤ (Block.init mat).health := by
    cases mat <;> norm_num [Block.init, Block.durability]
  have hB1 := Block.runDamage_bounds t₁ (Block.init mat) h1 hBinit
  have hB2 := Block.runDamage_bounds t₂ (Block.runDamage (Block.init mat) t₁)
    h2 hB1.1
  refine ⟨hP1.1.1, ?_, hP1.1.2, ?_, hB1.1, ?_, Iff.rfl, ?_⟩
  · rw [happ]; exact hP2.2
  · intro hdest
    rw [happ]
    exact Pig.runDamage_destroyed_mono t₂ _ hdest
  · rw [happB]; exact hB2.2
  · intro hdest
    rw [happB]
    exact Block.runDamage_stays_destroyed t₂ _ h2 hdest

/-- Witness for C1: a small pig and a wood block each hit for 10 and then 25
damage satisfy all the health/destroyed-flag invariants. -/
theorem C1_destructible_health_invariants_witness :
    (∀ d ∈ [(10:ℝ), 25], 0 ≤ d) ∧
    (0 ≤ (Pig.runDamage (Pig.init .small) [10]).health ∧
     (Pig.runDamage (Pig.init .small) ([10] ++ [25])).health ≤
       (Pig.runDamage (Pig.init .small) [10]).health ∧
     ((Pig.runDamage (Pig.init .small) [10]).isDestroyed = true ↔
       (Pig.runDamage (Pig.init .small) [10]).health ≤ 0) ∧
     ((Pig.runDamage (Pig.init .small) [10]).isDestroyed = true →
       (Pig.runDamage (Pig.init .small) ([10] ++ [25])).isDestroyed = true) ∧
     (0 ≤ (Block.runDamage (Block.init .wood) [10]).health) ∧
     ((Block.runDamage (Block.init .wood) ([10] ++ [25])).health ≤
       (Block.runDamage (Block.init .wood) [10]).health) ∧
     (Block.shouldDestroy (Block.runDamage (Block.init .wood) [10]) ↔
       (Block.runDamage (Block.init .wood) [10]).health ≤ 0) ∧
     (Block.shouldDestroy (Block.runDamage (Block.init .wood) [10]) →
       Block.shouldDestroy (Block.runDamage (Block.init .wood) ([10] ++ [25])))) :=
  ⟨by norm_num,
   C1_destructible_health_invariants .small .wood [10] [25]
     (by norm_num) (by norm_num)⟩

/-! ## Helper lemmas for the launcher -/

theorem Slingshot.updateDrag_isDragging (s : Slingshot.State) (x y : ℝ) :
    (Slingshot.updateDrag s x y).isDragging = s.isDragging := by
  simp only [Slingshot.updateDrag]
  split_ifs <;> rfl

theorem Slingshot.maxStretch_pos : (0:ℝ) < Slingshot.maxStretch := by
  norm_num [Slingshot.maxStretch]

theorem Slingshot.forceMultiplier_nonneg : (0:ℝ) ≤ Slingshot.forceMultiplier := by
  norm_num [Slingshot.forceMultiplier]

theorem Slingshot.updateDrag_dist (s : Slingshot.State) (x y : ℝ)
    (h : s.isDragging = true) :
    Slingshot.getDragDistance (Slingshot.updateDrag s x y) ≤
      Slingshot.maxStretch := by
  simp only [Slingshot.updateDrag, h, Bool.true_eq_false, if_false]
  split_ifs with hlt
  · show Real.sqrt
        ((s.anchorX + (x - s.anchorX) *
            (Slingshot.maxStretch / Real.sqrt ((x - s.anchorX) * (x - s.anchorX) +
              (y - s.anchorY) * (y - s.anchorY))) - s.anchorX) *
          (s.anchorX + (x - s.anchorX) *
            (Slingshot.maxStretch / Real.sqrt ((x - s.anchorX) * (x - s.anchorX) +
              (y - s.anchorY) * (y - s.anchorY))) - s.anchorX) +
         (s.anchorY + (y - s.anchorY) *
            (Slingshot.maxStretch / Real.sqrt ((x - s.anchorX) * (x - s.anchorX) +
              (y - s.anchorY) * (y - s.anchorY))) - s.anchorY) *
          (s.anchorY + (y - s.anchorY) *
            (Slingshot.maxStretch / Real.sqrt ((x - s.anchorX) * (x - s.anchorX) +
              (y - s.anchorY) * (y - s.anchorY))) - s.anchorY)) ≤
      Slingshot.maxStretch
    set dist := Real.sqrt ((x - s.anchorX) * (x - s.anchorX) +
      (y - s.anchorY) * (y - s.anchorY)) with hdist
    have hd : 0 < dist := lt_trans Slingshot.maxStretch_pos hlt
    have hr : 0 ≤ Slingshot.maxStretch / dist :=
      div_nonneg (le_of_lt Slingshot.maxStretch_pos) (le_of_lt hd)
    have hkey : (s.anchorX + (x - s.anchorX) * (Slingshot.maxStretch / dist) -
          s.anchorX) *
        (s.anchorX + (x - s.anchorX) * (Slingshot.maxStretch / dist) -
          s.anchorX) +
        (s.anchorY + (y - s.anchorY) * (Slingshot.maxStretch / dist) -
          s.anchorY) *
        (s.anchorY + (y - s.anchorY) * (Slingshot.maxStretch / dist) -
          s.anchorY) =
        (Slingshot.maxStretch / dist) ^ 2 *
          ((x - s.anchorX) * (x - s.anchorX) +
           (y - s.anchorY) * (y - s.anchorY)) := by
      ring
    rw [hkey, Real.sqrt_mul (sq_nonneg _), Real.sqrt_sq hr, ← hdist]
    rw [div_mul_cancel₀ _ (ne_of_gt hd)]
  · show Real.sqrt ((x - s.anchorX) * (x - s.anchorX) +
        (y - s.anchorY) * (y - s.anchorY)) ≤ Slingshot.maxStretch
    exact le_of_not_lt hlt

theorem Slingshot.dragSession_props (anchor p : Vec) (moves : List Vec) :
    (Slingshot.dragSession anchor p moves).isDragging = true ∧
    Slingshot.getDragDistance (Slingshot.dragSession anchor p moves) ≤
      Slingshot.maxStretch := by
  unfold Slingshot.dragSession
  have hstart : (Slingshot.startDrag
        (Slingshot.setPosition anchor.x anchor.y) p.x p.y).isDragging = true ∧
      Slingshot.getDragDistance (Slingshot.startDrag
        (Slingshot.setPosition anchor.x anchor.y) p.x p.y) ≤
        Slingshot.maxStretch := by
    unfold Slingshot.startDrag
    constructor
    · rw [Slingshot.updateDrag_isDragging]
    · exact Slingshot.updateDrag_dist _ p.x p.y rfl
  generalize Slingshot.startDrag (Slingshot.setPosition anchor.x anchor.y)
    p.x p.y = s0 at hstart
  induction moves generalizing s0 with
  | nil => simpa using hstart
  | cons m ms ih =>
    simp only [List.foldl_cons]
    refine ih (Slingshot.updateDrag s0 m.x m.y) ⟨?_, ?_⟩
    · rw [Slingshot.updateDrag_isDragging]; exact hstart.1
    · exact Slingshot.updateDrag_dist s0 m.x m.y hstart.1

theorem Slingshot.release_norm (s : Slingshot.State) :
    Vec.norm (Slingshot.release s).2 =
      Slingshot.forceMultiplier * Slingshot.getDragDistance s := by
  unfold Slingshot.release Vec.norm Slingshot.getDragDistance
  have hkey : (s.anchorX - s.dragX) * Slingshot.forceMultiplier *
        ((s.anchorX - s.dragX) * Slingshot.forceMultiplier) +
      (s.anchorY - s.dragY) * Slingshot.forceMultiplier *
        ((s.anchorY - s.dragY) * Slingshot.forceMultiplier) =
      Slingshot.forceMultiplier ^ 2 *
        ((s.dragX - s.anchorX) * (s.dragX - s.anchorX) +
         (s.dragY - s.anchorY) * (s.dragY - s.anchorY)) := by
    ring
  show Real.sqrt ((s.anchorX - s.dragX) * Slingshot.forceMultiplier *
        ((s.anchorX - s.dragX) * Slingshot.forceMultiplier) +
      (s.anchorY - s.dragY) * Slingshot.forceMultiplier *
        ((s.anchorY - s.dragY) * Slingshot.forceMultiplier)) = _
  rw [hkey, Real.sqrt_mul (sq_nonneg _),
    Real.sqrt_sq Slingshot.forceMultiplier_nonneg]

/-! ## Claims about the launcher -/

/-- Claim C7: after startDrag and any number of updateDrag calls, the stored
drag point is within maxStretch of the resting point (points beyond the limit
are scaled down along their direction), and the impulse returned by release
is exactly the opposite of the final drag vector scaled by forceMultiplier,
with magnitude at most maxStretch * forceMultiplier. -/
theorem C7_drag_clamp_and_release_impulse (anchor p : Vec)
    (moves : List Vec) :
    Slingshot.getDragDistance (Slingshot.dragSession anchor p moves) ≤
      Slingshot.maxStretch ∧
    (Slingshot.release (Slingshot.dragSession anchor p moves)).2.x =
      -Slingshot.forceMultiplier *
        ((Slingshot.dragSession anchor p moves).dragX -
         (Slingshot.dragSession anchor p moves).anchorX) ∧
    (Slingshot.release (Slingshot.dragSession anchor p moves)).2.y =
      -Slingshot.forceMultiplier *
        ((Slingshot.dragSession anchor p moves).dragY -
         (Slingshot.dragSession anchor p moves).anchorY) ∧
    Vec.norm (Slingshot.release (Slingshot.dragSession anchor p moves)).2 ≤
      Slingshot.maxStretch * Slingshot.forceMultiplier := by
  obtain ⟨hdragging, hdist⟩ := Slingshot.dragSession_props anchor p moves
  refine ⟨hdist, by unfold Slingshot.release; ring, by unfold Slingshot.release; ring, ?_⟩
  rw [Slingshot.release_norm]
  calc Slingshot.forceMultiplier *
      Slingshot.getDragDistance (Slingshot.dragSession anchor p moves) ≤
      Slingshot.forceMultiplier * Slingshot.maxStretch :=
        mul_le_mul_of_nonneg_left hdist Slingshot.forceMultiplier_nonneg
    _ = Slingshot.maxStretch * Slingshot.forceMultiplier := mul_comm _ _

/-! ## Claims about the split ability -/

theorem Bird.norm_splitChildVelocity (v : Vec) (α : ℝ) :
    Vec.norm (Bird.splitChildVelocity (Vec.norm v) α) = Vec.norm v := by
  unfold Bird.splitChildVelocity Vec.norm
  set s := Real.sqrt (v.x * v.x + v.y * v.y) with hs
  have hsn : 0 ≤ s := Real.sqrt_nonneg _
  have hkey : Real.cos α * s * (Real.cos α * s) +
      Real.sin α * s * (Real.sin α * s) = s ^ 2 := by
    have h := Real.sin_sq_add_cos_sq α
    linear_combination s ^ 2 * h
  rw [hkey, Real.sqrt_sq hsn]

/-- Claim C6: invoking the split ability on a projectile with velocity v
creates exactly two new projectiles, one on each side of the parent's
direction of travel at the configured 0.3 rad offset, each with speed equal
to the parent's pre-split speed; split birds (children and the re-grouped
parent) carry the negative-group filter, so they never collide with each
other or with the parent, but they still collide with the default-filter
bodies (obstacles, targets and the ground). -/
theorem C6_split_two_children_same_speed (v : Vec) :
    Bird.splitAbility v =
      [Bird.splitChildVelocity (Vec.norm v) (atan2 v.y v.x - 0.3),
       Bird.splitChildVelocity (Vec.norm v) (atan2 v.y v.x + 0.3)] ∧
    (Bird.splitAbility v).length = 2 ∧
    Vec.norm (Bird.splitChildVelocity (Vec.norm v) (atan2 v.y v.x - 0.3)) =
      Vec.norm v ∧
    Vec.norm (Bird.splitChildVelocity (Vec.norm v) (atan2 v.y v.x + 0.3)) =
      Vec.norm v ∧
    canCollide splitBirdFilter splitBirdFilter = false ∧
    canCollide splitBirdFilter defaultBodyFilter = true ∧
    canCollide defaultBodyFilter splitBirdFilter = true :=
  ⟨rfl, rfl,
   Bird.norm_splitChildVelocity v (atan2 v.y v.x - 0.3),
   Bird.norm_splitChildVelocity v (atan2 v.y v.x + 0.3),
   by decide, by decide, by decide⟩

/-! ## Claims about the collision damage formulas -/

theorem Real.sqrt_nine : Real.sqrt 9 = 3 := by
  rw [show (9:ℝ) = 3 ^ 2 by norm_num]
  exact Real.sqrt_sq (by norm_num)

theorem Real.sqrt_four : Real.sqrt 4 = 2 := by
  rw [show (4:ℝ) = 2 ^ 2 by norm_num]
  exact Real.sqrt_sq (by norm_num)

theorem Vec.norm_three_x : Vec.norm ⟨(3:ℝ), 0⟩ = 3 := by
  unfold Vec.norm
  norm_num [Real.sqrt_nine]

theorem Vec.norm_two_x : Vec.norm ⟨(2:ℝ), 0⟩ = 2 := by
  unfold Vec.norm
  norm_num [Real.sqrt_four]

theorem Block.handleCollision_eval (m : ℝ) :
    Block.handleCollision (Block.init .wood) 100 ⟨3, 0⟩ ⟨0, 0⟩ m =
      { health := 35, lastImpactTime := 100 } := by
  simp only [Block.handleCollision, Block.init, Block.takeDamage,
    Block.durability]
  norm_num [Vec.norm_three_x]

/-- Claim C4, counterexample: a Block collision applies damage
impactSpeed * 5 regardless of the other body's mass, so no material damage
constant c can make the claimed formula
damage = relativeSpeed * otherMass * c hold: at impact speed 3 on a fresh
wood block the post-collision health is 35 for other-body mass 1 and for
mass 2 alike, which is incompatible with any mass-proportional damage. -/
theorem C4_counterexample :
    ¬ ∃ c : ℝ, ∀ m : ℝ, 0 < m →
        (Block.handleCollision (Block.init .wood) 100 ⟨3, 0⟩ ⟨0, 0⟩ m).health =
          Block.durability .wood - 3 * m * c := by
  rintro ⟨c, h⟩
  have h1 := h 1 one_pos
  have h2 := h 2 two_pos
  rw [Block.handleCollision_eval] at h1 h2
  simp only [Block.durability] at h1 h2
  norm_num at h1 h2
  linarith

/-- Claim C4 (amended): at or below the minimum-impact threshold no damage is
applied (threshold 1.5 for a pig, 2 for a block).  Above the threshold and
outside the time guards, a pig takes damage
relativeSpeed * otherMass * 200, doubled when otherMass > 0.0015 — the
source's mass heuristic for a projectile, which every projectile variant
satisfies — while a block takes damage impactSpeed * 5, with no dependence on
the other body's mass and no projectile bonus. -/
theorem C4_damage_formulas :
    (∀ (s : Pig.State) (now : ℕ) (vA vB : Vec) (m : ℝ) (g : Bool),
      Vec.norm ⟨vA.x - vB.x, vA.y - vB.y⟩ ≤ 1.5 →
      Pig.handleCollision s now vA vB m g = s) ∧
    (∀ (s : Pig.State) (now : ℕ) (vA vB : Vec) (m : ℝ),
      ¬(now - s.spawnTime < 1200) → ¬(now - s.lastDamageTime < 50) →
      1.5 < Vec.norm ⟨vA.x - vB.x, vA.y - vB.y⟩ →
      Pig.handleCollision s now vA vB m false =
        { Pig.takeDamage s (Vec.norm ⟨vA.x - vB.x, vA.y - vB.y⟩ * m * 200 *
            (if (0.0015:ℝ) < m then 2 else 1)) with lastDamageTime := now }) ∧
    (∀ (s : Block.State) (now : ℕ) (vS vO : Vec) (m : ℝ),
      Vec.norm ⟨vS.x - vO.x, vS.y - vO.y⟩ ≤ 2 →
      Block.handleCollision s now vS vO m = s) ∧
    (∀ (s : Block.State) (now : ℕ) (vS vO : Vec) (m : ℝ),
      ¬(now - s.lastImpactTime < 100) →
      2 < Vec.norm ⟨vS.x - vO.x, vS.y - vO.y⟩ →
      Block.handleCollision s now vS vO m =
        { Block.takeDamage s (Vec.norm ⟨vS.x - vO.x, vS.y - vO.y⟩ * 5) with
            lastImpactTime := now }) ∧
    (∀ (s : Block.State) (now : ℕ) (vS vO : Vec) (m₁ m₂ : ℝ),
      Block.handleCollision s now vS vO m₁ =
        Block.handleCollision s now vS vO m₂) ∧
    (∀ t : BirdType, (0.0015:ℝ) < Bird.massOf t) := by
  refine ⟨?_, ?_, ?_, ?_, ?_, ?_⟩
  · intro s now vA vB m g hle
    simp only [Pig.handleCollision]
    split_ifs with g1 g2 g3 g4 g5
    · rfl
    · rfl
    · rfl
    · exact absurd g4 (not_lt.mpr hle)
    · exact absurd g4 (not_lt.mpr hle)
    · rfl
  · intro s now vA vB m hg1 hg2 hrel
    simp only [Pig.handleCollision]
    rw [if_neg hg1, if_neg hg2]
    simp only [Bool.false_eq_true, if_false]
    rw [if_pos hrel]
  · intro s now vS vO m hle
    simp only [Block.handleCollision]
    split_ifs with g1 g2
    · rfl
    · exact absurd g2 (not_lt.mpr hle)
    · rfl
  · intro s now vS vO m hg1 hrel
    simp only [Block.handleCollision]
    rw [if_neg hg1, if_pos hrel]
  · intro s now vS vO m₁ m₂
    rfl
  · intro t
    cases t <;>
      (simp only [Bird.massOf, Bird.getDensity, Bird.getRadius]
       nlinarith [Real.pi_gt_three])

/-- Witness for C4 (amended): a pig hit at relative speed 2 by a unit-mass
body outside the guard windows takes the doubled mass-scaled damage, and a
wood block hit at impact speed 3 takes damage 15. -/
theorem C4_damage_formulas_witness :
    ¬(2000 - (Pig.init .small).spawnTime < 1200) ∧
    ¬(2000 - (Pig.init .small).lastDamageTime < 50) ∧
    (1.5 < Vec.norm ⟨(2:ℝ) - 0, (0:ℝ) - 0⟩) ∧
    (Pig.handleCollision (Pig.init .small) 2000 ⟨2, 0⟩ ⟨0, 0⟩ 1 false =
      { Pig.takeDamage (Pig.init .small)
          (Vec.norm ⟨(2:ℝ) - 0, (0:ℝ) - 0⟩ * 1 * 200 *
            (if (0.0015:ℝ) < 1 then 2 else 1)) with lastDamageTime := 2000 }) ∧
    ¬(100 - (Block.init .wood).lastImpactTime < 100) ∧
    (2 < Vec.norm ⟨(3:ℝ) - 0, (0:ℝ) - 0⟩) ∧
    (Block.handleCollision (Block.init .wood) 100 ⟨3, 0⟩ ⟨0, 0⟩ 1 =
      { Block.takeDamage (Block.init .wood)
          (Vec.norm ⟨(3:ℝ) - 0, (0:ℝ) - 0⟩ * 5) with lastImpactTime := 100 }) := by
  have hp1 : ¬(2000 - (Pig.init .small).spawnTime < 1200) := by
    norm_num [Pig.init]
  have hp2 : ¬(2000 - (Pig.init .small).lastDamageTime < 50) := by
    norm_num [Pig.init]
  have hp3 : (1.5:ℝ) < Vec.norm ⟨(2:ℝ) - 0, (0:ℝ) - 0⟩ := by
    norm_num [Vec.norm_two_x]
  have hb1 : ¬(100 - (Block.init .wood).lastImpactTime < 100) := by
    norm_num [Block.init]
  have hb2 : (2:ℝ) < Vec.norm ⟨(3:ℝ) - 0, (0:ℝ) - 0⟩ := by
    norm_num [Vec.norm_three_x]
  exact ⟨hp1, hp2, hp3,
    C4_damage_formulas.2.1 (Pig.init .small) 2000 ⟨2, 0⟩ ⟨0, 0⟩ 1 hp1 hp2 hp3,
    hb1, hb2,
    C4_damage_formulas.2.2.2.1 (Block.init .wood) 100 ⟨3, 0⟩ ⟨0, 0⟩ 1 hb1 hb2⟩
